import Mathlib

/-!
Shallow embedding of the map-reduce PDF summarization pipeline of
`src/app.py` (with the mode prompts of `src/prompts.py`).

External collaborators (the `genaipy` package: `build_prompt`,
`get_chat_response`, `extract_pages_text`, and its three default General-mode
prompt constants) are not part of this repository; they are modelled as
oracle parameters (`Oracles`) and opaque string parameters (the
`genaipy_*` fields of `AppConfig`).  Everything else is translated line by
line from `src/app.py`.

A `PageSet` (the dict returned by `extract_pages_text`) is modelled as a
`List (Nat × String)` in its iteration order.  Side effects (calls to
`build_prompt`, `get_chat_response`, `progress_bar.progress`, and the page
extractor) are recorded in an explicit event trace so that invocation-order
claims can be stated.
-/

set_option autoImplicit false

namespace PdfSummarizer

instance {ε α : Type _} [DecidableEq ε] [DecidableEq α] : DecidableEq (Except ε α) := fun a b =>
  match a, b with
  | .error x, .error y =>
    if h : x = y then .isTrue (congrArg Except.error h)
    else .isFalse (fun hc => h (Except.error.inj hc))
  | .error _, .ok _ => .isFalse (fun hc => Except.noConfusion hc)
  | .ok _, .error _ => .isFalse (fun hc => Except.noConfusion hc)
  | .ok x, .ok y =>
    if h : x = y then .isTrue (congrArg Except.ok h)
    else .isFalse (fun hc => h (Except.ok.inj hc))

/-! ### Character-level text operations

`"\n".join(map_summaries)` and Python's `str.replace("\n\n", "")`
(a single left-to-right non-overlapping pass replacing every occurrence of
two consecutive newlines with the empty string), used at `app.py` line 124. -/

/-- Python `"\n".join(ss)`: the strings concatenated with a single newline
between consecutive elements (char-list form). -/
def joinNewline : List String → List Char
  | [] => []
  | [s] => s.toList
  | s :: s₂ :: ss => s.toList ++ '\n' :: joinNewline (s₂ :: ss)

/-- Python `str.replace("\x7bsrc\x7d", "")` specialised to `src = "\n\n"`:
one left-to-right pass; each occurrence of two consecutive newlines is
deleted and scanning resumes after it. -/
def dropDoubleNewlines : List Char → List Char
  | [] => []
  | [c] => [c]
  | c :: c₂ :: cs =>
    if c = '\n' ∧ c₂ = '\n' then dropDoubleNewlines cs
    else c :: dropDoubleNewlines (c₂ :: cs)

/-- Whether the list contains two consecutive newline characters. -/
def hasDoubleNewline : List Char → Bool
  | c :: c₂ :: cs => (c = '\n' && c₂ = '\n') || hasDoubleNewline (c₂ :: cs)
  | _ => false

/-- `app.py` line 124: `text = "\n".join(map_summaries).replace("\n\n", "")` —
the text handed to the reduce prompt builder. -/
def reduceText (map_summaries : List String) : String :=
  (dropDoubleNewlines (joinNewline map_summaries)).asString

/-! ### Prompts (`src/prompts.py`) -/

/-- `prompts.py`: `SYS_MESSAGE_RESEARCH`. -/
def SYS_MESSAGE_RESEARCH : String :=
  "\nYou are a full professor at the prestigious Massachusetts Institute of Technology. You have mastered the skill of reading academic research articles and excell at summarizing their general ideas in simple English.\n"

/-- `prompts.py`: `MAP_PROMPT_RESEARCH`. -/
def MAP_PROMPT_RESEARCH : String :=
  "\nArticle Page:\n\x60\x60\x60{text}\x60\x60\x60\n\nInstructions:\nYour task is to generate a summary of the provided \x60Article Page\x60 of an academic research article.\nSummarize the provided page, delimited by triple backticks, in at most {max_words} words.\nBe detailed and specific when writting your page summary.\n\nPage Summary:\n"

/-- `prompts.py`: `REDUCE_PROMPT_RESEARCH`. -/
def REDUCE_PROMPT_RESEARCH : String :=
  "\nPage Summaries:\n\x60\x60\x60\n{text}\n\x60\x60\x60\n\nOutput Format:\n# Title\n\n## Category:\n[What type of paper is this? An empirical paper? An analysis of an existing system? A description of a research prototype? A theoretical paper?]\n\n## Context:\n[Which other specific papers is it related to? Which theoretical bases were used to analyze the problem?]\n\n## Correctness:\n[Do the assumptions appear to be valid? Appear any of the assumptions to be problematic?]\n\n## Contributions:\n[What are the paper\x27s main contributions? What is the novelty?]\n\n## Clarity:\n[Is the paper well written?]\n\nInstructions:\nYou are provided with \x60Page Summaries\x60 of an academic research article delimited by triple back ticks. Your task is to write a final, coherent summary of the article in at most {max_words} words.\nThe final summary must answer the five C\x27s (Category, Context, Correctness, Contributions, Clarity) in the provided \x60Output Format\x60.\nBe detailed and specific when writting your final summary. Remember, to only provide the final summary according to the \x60Output Format\x60.\n"

/-! ### Mode configuration (`app.py` lines 25-79) -/

/-- The two entries of the `mode_settings` dict / the radio choices
`["General", "Research"]`. -/
inductive Mode where
  | general
  | research
  deriving DecidableEq

/-- One value of the `mode_settings` dict: `sys_message`, `map_prompt_tpl`,
`reduce_prompt_tpl`. -/
structure ModeSetting where
  sys_message : String
  map_prompt_tpl : String
  reduce_prompt_tpl : String
  deriving DecidableEq

/-- Module-level state of `app.py` fixed before a run: the `genaipy`
General-mode constants (`DEFAULT_SYS_MESSAGE`, `SUMMARY_PROMPT_TPL`,
`REDUCE_SUMMARY_PROMPT_TPL`, imported from the external package, hence
opaque parameters here), the sidebar mode selection, and the two
word-budget number inputs. -/
structure AppConfig where
  genaipy_sys : String
  genaipy_map_tpl : String
  genaipy_reduce_tpl : String
  selected_mode : Mode
  user_map_words : Nat
  user_reduce_words : Nat
  deriving DecidableEq

/-- `app.py` lines 25-36: the `mode_settings` dict. -/
def mode_settings (cfg : AppConfig) : Mode → ModeSetting
  | .general => ⟨cfg.genaipy_sys, cfg.genaipy_map_tpl, cfg.genaipy_reduce_tpl⟩
  | .research => ⟨SYS_MESSAGE_RESEARCH, MAP_PROMPT_RESEARCH, REDUCE_PROMPT_RESEARCH⟩

/-- `app.py` line 57: `user_system_message = mode_settings[selected_mode]["sys_message"]`. -/
def user_system_message (cfg : AppConfig) : String :=
  (mode_settings cfg cfg.selected_mode).sys_message

/-- `app.py` line 58: `map_prompt_template = mode_settings[selected_mode]["map_prompt_tpl"]`
(assigned and never used afterwards in the source). -/
def map_prompt_template (cfg : AppConfig) : String :=
  (mode_settings cfg cfg.selected_mode).map_prompt_tpl

/-- `app.py` line 59: `reduce_prompt_template = mode_settings[selected_mode]["reduce_prompt_tpl"]`
(assigned and never used afterwards in the source). -/
def reduce_prompt_template (cfg : AppConfig) : String :=
  (mode_settings cfg cfg.selected_mode).reduce_prompt_tpl

/-! ### External collaborators as oracles -/

/-- The three external `genaipy` calls, as pure oracles:
`build_prompt(template, text, max_words)` (total),
`get_chat_response(prompt, sys_message, model, max_tokens)` (fallible,
error modelled as its message string), and
`extract_pages_text(pdf_path, start_page, end_page)` (fallible, returning
the page dict in iteration order). -/
structure Oracles where
  build : String → String → Nat → String
  chat : String → String → String → Option Nat → Except String String
  extract : String → Nat → Nat → Except String (List (Nat × String))

/-- Observable external calls of a run, in program order. -/
inductive Event where
  | extract (pdf_path : String) (start_page end_page : Nat)
  | buildPrompt (template text : String) (max_words : Nat)
  | chatCall (prompt sys_message model : String) (max_tokens : Option Nat)
  | progress (value : ℚ)
  deriving DecidableEq

/-! ### Map stage (`app.py` lines 96-119) -/

/-- Outcome of `generate_map_summaries`: the returned list or the raised
exception, the external-call trace (including each
`progress_bar.progress((i + 1) / total_pages)` call), and the page number
recorded by the `logging.error(..., page, e)` call in the `except` branch,
if the loop raised. -/
structure MapResult where
  result : Except String (List String)
  events : List Event
  errorLogPage : Option Nat
  deriving DecidableEq

/-- The `for i, (page, content) in enumerate(pages.items())` loop of
`generate_map_summaries`, with `i` the enumeration index and `total` the
value of `total_pages`.  Each iteration builds the map prompt from the
hard-coded `MAP_PROMPT_RESEARCH` template (`app.py` line 103), calls
`get_chat_response(map_prompt, sys_message=user_system_message,
model="gpt-3.5-turbo")`, appends the summary, and reports progress
`(i + 1) / total`; a failed call logs the page number and re-raises. -/
def mapLoop (o : Oracles) (cfg : AppConfig) (total : Nat) :
    Nat → List (Nat × String) → MapResult
  | _, [] => ⟨.ok [], [], none⟩
  | i, (page, content) :: rest =>
    let map_prompt := o.build MAP_PROMPT_RESEARCH content cfg.user_map_words
    match o.chat map_prompt (user_system_message cfg) "gpt-3.5-turbo" none with
    | .error e =>
      ⟨.error e,
       [.buildPrompt MAP_PROMPT_RESEARCH content cfg.user_map_words,
        .chatCall map_prompt (user_system_message cfg) "gpt-3.5-turbo" none],
       some page⟩
    | .ok summary =>
      let r := mapLoop o cfg total (i + 1) rest
      ⟨r.result.map (fun ss => summary :: ss),
       .buildPrompt MAP_PROMPT_RESEARCH content cfg.user_map_words ::
       .chatCall map_prompt (user_system_message cfg) "gpt-3.5-turbo" none ::
       .progress ((i + 1 : ℚ) / (total : ℚ)) :: r.events,
       r.errorLogPage⟩

/-- `app.py` lines 96-119: `generate_map_summaries(pages, progress_bar)`.
`pages` is the extracted dict in its iteration order;
`total_pages = len(pages)` and enumeration starts at `i = 0`. -/
def generate_map_summaries (o : Oracles) (cfg : AppConfig)
    (pages : List (Nat × String)) : MapResult :=
  mapLoop o cfg pages.length 0 pages

/-- The values passed to `progress_bar.progress`, in order. -/
def progressValues (events : List Event) : List ℚ :=
  events.filterMap (fun e => match e with
    | .progress v => some v
    | _ => none)

/-- The `template` arguments passed to `build_prompt`, in order. -/
def builtTemplates (events : List Event) : List String :=
  events.filterMap (fun e => match e with
    | .buildPrompt tpl _ _ => some tpl
    | _ => none)

/-! ### Reduce stage (`app.py` lines 122-139) -/

/-- Outcome of `generate_reduce_summary`: the returned final summary or the
raised exception, plus the external-call trace. -/
structure ReduceResult where
  result : Except String String
  events : List Event
  deriving DecidableEq

/-- `app.py` lines 122-139: `generate_reduce_summary(map_summaries)` joins
the summaries (`reduceText`), builds the reduce prompt from the hard-coded
`REDUCE_PROMPT_RESEARCH` template (`app.py` line 127), and calls
`get_chat_response(prompt=reduce_prompt, sys_message=user_system_message,
model="gpt-4-1106-preview", max_tokens=1024)`; a failure is logged and
re-raised. -/
def generate_reduce_summary (o : Oracles) (cfg : AppConfig)
    (map_summaries : List String) : ReduceResult :=
  let text := reduceText map_summaries
  let reduce_prompt := o.build REDUCE_PROMPT_RESEARCH text cfg.user_reduce_words
  ⟨(o.chat reduce_prompt (user_system_message cfg) "gpt-4-1106-preview" (some 1024)),
   [.buildPrompt REDUCE_PROMPT_RESEARCH text cfg.user_reduce_words,
    .chatCall reduce_prompt (user_system_message cfg) "gpt-4-1106-preview" (some 1024)]⟩

/-! ### Pipeline controller (`app.py` lines 83-93 and 148-166) -/

/-- The `status_text` outcome of the button handler: the success message or
the `except` branch's error message. -/
inductive Status where
  | success
  | error (msg : String)
  deriving DecidableEq

/-- Outcome of one press of the `Generate Summary` button:
`st.session_state["final_summary"]` after the handler (given its value
`prev` before), the final status text, and the external-call trace. -/
structure RunResult where
  final_summary : Option String
  status : Status
  events : List Event
  deriving DecidableEq

/-- `app.py` lines 148-166 (with `process_pdf`, lines 83-93, inlined: its
`try/except` logs and re-raises, so it is a pass-through to
`extract_pages_text`).  The handler extracts pages, runs the map stage,
runs the reduce stage, and assigns `st.session_state["final_summary"]`
only from a successful reduce; any raised exception lands in the `except`
branch, which sets the error status and leaves the session state as it
was.  There is no validation of `start_page` against `end_page` anywhere
before the extractor call.  (`st.progress(0)` at line 154 constructs the
progress-bar widget at zero; the `progress` events of the trace are the
`progress_bar.progress(...)` calls made by the map stage.) -/
def runPipeline (o : Oracles) (cfg : AppConfig) (pdf_path : String)
    (start_page end_page : Nat) (prev : Option String) : RunResult :=
  match o.extract pdf_path start_page end_page with
  | .error e => ⟨prev, .error e, [.extract pdf_path start_page end_page]⟩
  | .ok pages =>
    let m := generate_map_summaries o cfg pages
    match m.result with
    | .error e => ⟨prev, .error e, .extract pdf_path start_page end_page :: m.events⟩
    | .ok summaries =>
      let r := generate_reduce_summary o cfg summaries
      match r.result with
      | .error e =>
        ⟨prev, .error e,
         .extract pdf_path start_page end_page :: (m.events ++ r.events)⟩
      | .ok fs =>
        ⟨some fs, .success,
         .extract pdf_path start_page end_page :: (m.events ++ r.events)⟩

/-! ### Derived notions used to state the properties -/

/-- The completion call made for one page of content: the map prompt is built
from the hard-coded `MAP_PROMPT_RESEARCH` and sent with
`user_system_message` and model `"gpt-3.5-turbo"` (no `max_tokens`).
Definitionally the call appearing inside `mapLoop`. -/
def mapCallResult (o : Oracles) (cfg : AppConfig) (content : String) :
    Except String String :=
  o.chat (o.build MAP_PROMPT_RESEARCH content cfg.user_map_words)
    (user_system_message cfg) "gpt-3.5-turbo" none

/-- The completion oracle never fails (every map/reduce call succeeds). -/
def chatAlwaysOk (o : Oracles) : Prop :=
  ∀ p s m t, ∃ r, o.chat p s m t = .ok r

/-- Insertion step of `sortByPage`. -/
def insertByPage (x : Nat × String) : List (Nat × String) → List (Nat × String)
  | [] => [x]
  | y :: ys => if x.1 ≤ y.1 then x :: y :: ys else y :: insertByPage x ys

/-- The PageSet re-ordered into ascending `page_number` order (insertion
sort on the page number); used to state the ordering claim. -/
def sortByPage (l : List (Nat × String)) : List (Nat × String) :=
  l.foldr insertByPage []

/-- Whether an event belongs to the reduce side: a prompt built from the
reduce template or a completion call to the reduce model
`"gpt-4-1106-preview"`. -/
def isReduceCall : Event → Bool
  | .chatCall _ _ m _ => m = "gpt-4-1106-preview"
  | .buildPrompt t _ _ => t = REDUCE_PROMPT_RESEARCH
  | _ => false

/-! ### Concrete instruments for witnesses and counterexamples -/

/-- A deterministic oracle assignment for concrete evaluations: the prompt
builder returns the page text unchanged, every completion call succeeds and
answers prompt `p` with `"S" ++ p`, and the extractor returns the single
page `(5, "x")`. -/
def okOracles : Oracles where
  build := fun _ text _ => text
  chat := fun p _ _ _ => .ok ("S" ++ p)
  extract := fun _ _ _ => .ok [(5, "x")]

/-- A deterministic oracle assignment whose completion call fails exactly on
prompt `"b"` (with message `"boom"`); the extractor returns three pages
whose second page's text is `"b"`. -/
def failOracles : Oracles where
  build := fun _ text _ => text
  chat := fun p _ _ _ => if p = "b" then .error "boom" else .ok ("S" ++ p)
  extract := fun _ _ _ => .ok [(1, "a"), (2, "b"), (3, "c")]

/-- A concrete module-level configuration: General mode selected, with
placeholder strings standing for the three external `genaipy` General-mode
constants, and the default word budgets (150 map, 300 reduce). -/
def cfgG : AppConfig :=
  ⟨"general-sys", "general-map-tpl", "general-reduce-tpl", .general, 150, 300⟩

/-! ## Claim theorems -/

/-- C10: on the empty PageSet, `generate_map_summaries` returns the empty
summary list without error, makes no external calls, and reports no
progress value — the expression `(i + 1) / total_pages` occurs only inside
the per-page loop body, so with `total_pages = 0` it is never evaluated
(the trace contains no `progress` event). -/
theorem generate_map_summaries_nil (o : Oracles) (cfg : AppConfig) :
    generate_map_summaries o cfg [] = ⟨.ok [], [], none⟩ := rfl

/-- C9: the stored final summary is only reassigned after a successful
reduce: every run either ends in the error status and leaves
`st.session_state["final_summary"]` exactly as it was (`prev`), or ends in
the success status with the slot holding the reduce stage's output. -/
theorem final_summary_only_on_success (o : Oracles) (cfg : AppConfig)
    (path : String) (start_page end_page : Nat) (prev : Option String) :
    (∃ msg, (runPipeline o cfg path start_page end_page prev).status = .error msg ∧
        (runPipeline o cfg path start_page end_page prev).final_summary = prev) ∨
    ((runPipeline o cfg path start_page end_page prev).status = .success ∧
      ∃ pages ss fs,
        o.extract path start_page end_page = .ok pages ∧
        (generate_map_summaries o cfg pages).result = .ok ss ∧
        (generate_reduce_summary o cfg ss).result = .ok fs ∧
        (runPipeline o cfg path start_page end_page prev).final_summary = some fs) := by
  unfold runPipeline
  cases hex : o.extract path start_page end_page with
  | error e => exact .inl ⟨e, rfl, rfl⟩
  | ok pages =>
    cases hm : (generate_map_summaries o cfg pages).result with
    | error e => exact .inl ⟨e, by simp [hm], by simp [hm]⟩
    | ok ss =>
      cases hr : (generate_reduce_summary o cfg ss).result with
      | error e => exact .inl ⟨e, by simp [hm, hr], by simp [hm, hr]⟩
      | ok fs =>
        exact .inr ⟨by simp [hm, hr], pages, ss, fs, rfl, hm, hr, by simp [hm, hr]⟩

/-- C2 (amended): the button handler performs no page-range validation at
all — for every configuration, path, range and oracle assignment, the very
first external call of the run is the page-extractor invocation with
exactly the given `start_page` and `end_page`.  Any failure on a bad range
originates in the extractor and is propagated; there is no
`InvalidRangeError` raised before it. -/
theorem run_always_invokes_extractor_first (o : Oracles) (cfg : AppConfig)
    (path : String) (start_page end_page : Nat) (prev : Option String) :
    (runPipeline o cfg path start_page end_page prev).events.head?
      = some (.extract path start_page end_page) := by
  unfold runPipeline
  cases hex : o.extract path start_page end_page with
  | error e => rfl
  | ok pages =>
    cases hm : (generate_map_summaries o cfg pages).result with
    | error e => simp [hm]
    | ok ss =>
      cases hr : (generate_reduce_summary o cfg ss).result with
      | error e => simp [hm, hr]
      | ok fs => simp [hm, hr]

/-- C2 counterexample: with `start_page = 5 > 2 = end_page` (both ≥ 1) the
run does not fail before the Page Extractor is invoked — the extractor is
the first recorded call (with exactly that range), and a completion call is
attempted afterwards.  The code raises no `InvalidRangeError`: no such
check exists in `app.py`. -/
theorem no_range_validation_at_5_2 :
    5 > 2 ∧
    (runPipeline okOracles cfgG "temp.pdf" 5 2 none).events.head?
        = some (Event.extract "temp.pdf" 5 2) ∧
    Event.chatCall "x" (user_system_message cfgG) "gpt-3.5-turbo" none
        ∈ (runPipeline okOracles cfgG "temp.pdf" 5 2 none).events :=
  ⟨by decide, by decide, by decide⟩

/-- Helper: under an always-succeeding completion oracle, every `mapLoop`
run returns a summary list of the same length as its page list. -/
theorem mapLoop_length_ok (o : Oracles) (cfg : AppConfig) (hok : chatAlwaysOk o) :
    ∀ (l : List (Nat × String)) (i total : Nat),
      ∃ out, (mapLoop o cfg total i l).result = .ok out ∧ out.length = l.length := by
  intro l
  induction l with
  | nil => intro i total; exact ⟨[], rfl, rfl⟩
  | cons pc rest ih =>
    intro i total
    obtain ⟨page, content⟩ := pc
    obtain ⟨s, hs⟩ := hok (o.build MAP_PROMPT_RESEARCH content cfg.user_map_words)
      (user_system_message cfg) "gpt-3.5-turbo" none
    obtain ⟨out, hout, hlen⟩ := ih (i + 1) total
    exact ⟨s :: out, by simp [mapLoop, hs, hout, Except.map], by simp [hlen]⟩

/-- C5: for every non-empty PageSet, when every completion call succeeds the
map stage returns a summary sequence whose length equals the number of
pages. -/
theorem generate_map_summaries_length (o : Oracles) (cfg : AppConfig)
    (pages : List (Nat × String)) (hne : pages ≠ []) (hok : chatAlwaysOk o) :
    ∃ out, (generate_map_summaries o cfg pages).result = .ok out ∧
      out.length = pages.length :=
  mapLoop_length_ok o cfg hok pages 0 pages.length

/-- C5 witness: a concrete one-page PageSet under the always-succeeding
oracle yields a one-element summary sequence. -/
theorem generate_map_summaries_length_witness :
    ([(1, "a")] : List (Nat × String)) ≠ [] ∧
    ∃ out, (generate_map_summaries okOracles cfgG [(1, "a")]).result = .ok out ∧
      out.length = [(1, "a")].length :=
  ⟨by decide, generate_map_summaries_length okOracles cfgG [(1, "a")] (by decide)
    (fun p _ _ _ => ⟨"S" ++ p, rfl⟩)⟩

/-- Helper: if every page of the prefix succeeds and the next page's
completion call fails with `e`, `mapLoop` raises `e` and logs that page's
number in the error log. -/
theorem mapLoop_error_at (o : Oracles) (cfg : AppConfig) (page : Nat)
    (content e : String) (rest : List (Nat × String))
    (hfail : mapCallResult o cfg content = .error e) :
    ∀ (pre : List (Nat × String)) (i total : Nat),
      (∀ pc ∈ pre, ∃ s, mapCallResult o cfg pc.2 = .ok s) →
      (mapLoop o cfg total i (pre ++ (page, content) :: rest)).result = .error e ∧
      (mapLoop o cfg total i (pre ++ (page, content) :: rest)).errorLogPage
        = some page := by
  unfold mapCallResult at hfail
  intro pre
  induction pre with
  | nil =>
    intro i total _
    simp only [List.nil_append]
    constructor <;> simp [mapLoop, hfail]
  | cons qc pre' ih =>
    intro i total hpre
    obtain ⟨q, c⟩ := qc
    obtain ⟨s, hs⟩ := hpre (q, c) (List.mem_cons_self _ _)
    unfold mapCallResult at hs
    have hrec := ih (i + 1) total (fun pc hpc => hpre pc (List.mem_cons_of_mem _ hpc))
    constructor
    · simp [mapLoop, hs, hrec.1, Except.map]
    · simp [mapLoop, hs, hrec.2]

/-- C3: if the completion call of the page at position `k` fails (every
earlier page succeeding), the map stage returns no summary sequence at all
— its outcome is the raised error, not a partial list of length `k` — and
the failure is surfaced with the offending page's `page_number`: the
`except` branch logs exactly that page number before re-raising. -/
theorem map_stage_aborts_on_failed_page (o : Oracles) (cfg : AppConfig)
    (pre rest : List (Nat × String)) (page : Nat) (content e : String)
    (hpre : ∀ pc ∈ pre, ∃ s, mapCallResult o cfg pc.2 = .ok s)
    (hfail : mapCallResult o cfg content = .error e) :
    (generate_map_summaries o cfg (pre ++ (page, content) :: rest)).result
        = .error e ∧
    (generate_map_summaries o cfg (pre ++ (page, content) :: rest)).errorLogPage
        = some page :=
  mapLoop_error_at o cfg page content e rest hfail pre 0 _ hpre

/-- C3 witness: page 2 of 3 fails (`"boom"`); the map stage's outcome is the
error with page number 2 logged, and no summary list. -/
theorem map_stage_aborts_witness :
    (∀ pc ∈ ([(1, "a")] : List (Nat × String)),
        ∃ s, mapCallResult failOracles cfgG pc.2 = .ok s) ∧
    mapCallResult failOracles cfgG "b" = .error "boom" ∧
    ((generate_map_summaries failOracles cfgG
          ([(1, "a")] ++ (2, "b") :: [(3, "c")])).result = .error "boom" ∧
      (generate_map_summaries failOracles cfgG
          ([(1, "a")] ++ (2, "b") :: [(3, "c")])).errorLogPage = some 2) := by
  have hpre : ∀ pc ∈ ([(1, "a")] : List (Nat × String)),
      ∃ s, mapCallResult failOracles cfgG pc.2 = .ok s := by
    intro pc hpc
    rw [List.mem_singleton] at hpc
    subst hpc
    exact ⟨"Sa", rfl⟩
  exact ⟨hpre, rfl,
    map_stage_aborts_on_failed_page failOracles cfgG [(1, "a")] [(3, "c")] 2 "b" "boom"
      hpre rfl⟩

/-- Helper: an insertion sort on a list already sorted by page number is the
identity. -/
theorem sortByPage_eq_self (l : List (Nat × String))
    (hl : l.Pairwise (fun a b => a.1 ≤ b.1)) : sortByPage l = l := by
  induction l with
  | nil => rfl
  | cons x xs ih =>
    have hx : ∀ y ∈ xs, x.1 ≤ y.1 := fun y hy => (List.pairwise_cons.mp hl).1 y hy
    have hxs := ih (List.pairwise_cons.mp hl).2
    have hstep : sortByPage (x :: xs) = insertByPage x (sortByPage xs) := rfl
    rw [hstep, hxs]
    cases xs with
    | nil => rfl
    | cons y ys => simp [insertByPage, hx y (List.mem_cons_self _ _)]

/-- C4 (amended): the map stage performs no reordering — summaries are
collected in the PageSet's iteration order.  When the PageSet iterates in
ascending `page_number` order (as the extractor produces it), the output
coincides with the output on the ascending-order PageSet, so only then is
it ordered by ascending page number. -/
theorem map_order_matches_iteration_order (o : Oracles) (cfg : AppConfig)
    (pages : List (Nat × String))
    (hsorted : pages.Pairwise (fun a b => a.1 ≤ b.1)) :
    (generate_map_summaries o cfg pages).result
      = (generate_map_summaries o cfg (sortByPage pages)).result := by
  rw [sortByPage_eq_self pages hsorted]

/-- C4 amended witness: on an already-ascending two-page PageSet the output
equals the ascending-order output. -/
theorem map_order_matches_iteration_order_witness :
    (([(1, "a"), (2, "b")] : List (Nat × String)).Pairwise (fun a b => a.1 ≤ b.1)) ∧
    (generate_map_summaries okOracles cfgG [(1, "a"), (2, "b")]).result
      = (generate_map_summaries okOracles cfgG (sortByPage [(1, "a"), (2, "b")])).result :=
  ⟨by decide,
    map_order_matches_iteration_order okOracles cfgG [(1, "a"), (2, "b")] (by decide)⟩

/-- C4 counterexample: a PageSet handed over in iteration order page 2 then
page 1 yields the iteration-order summary sequence `["Sb", "Sa"]`, not the
ascending-`page_number` sequence `["Sa", "Sb"]` produced from the sorted
PageSet — the output is not ascending regardless of arrival order. -/
theorem map_order_counterexample :
    (generate_map_summaries okOracles cfgG [(2, "b"), (1, "a")]).result
        = .ok ["Sb", "Sa"] ∧
    (generate_map_summaries okOracles cfgG (sortByPage [(2, "b"), (1, "a")])).result
        = .ok ["Sa", "Sb"] ∧
    (Except.ok ["Sb", "Sa"] : Except String (List String)) ≠ .ok ["Sa", "Sb"] :=
  ⟨by decide, by decide, by decide⟩

/-- Helper: dropping doubled newlines is the identity on a character list
without two consecutive newlines. -/
theorem dropDoubleNewlines_eq_self (l : List Char) (h : hasDoubleNewline l = false) :
    dropDoubleNewlines l = l := by
  induction l using dropDoubleNewlines.induct with
  | case1 => rfl
  | case2 c => rfl
  | case3 c c2 cs hc ih =>
    exfalso
    simp [hasDoubleNewline, hc.1, hc.2] at h
  | case4 c c2 cs hc ih =>
    rw [dropDoubleNewlines, if_neg hc, ih]
    rw [hasDoubleNewline] at h
    simp at h
    exact h.2

/-- Unfolding equation for `hasDoubleNewline` on two leading characters. -/
theorem hasDoubleNewline_cons₂ (c c₂ : Char) (cs : List Char) :
    hasDoubleNewline (c :: c₂ :: cs)
      = ((decide (c = '\n') && decide (c₂ = '\n')) || hasDoubleNewline (c₂ :: cs)) := rfl

/-- Helper: a newline-free block on the left neither creates nor hides a
doubled newline. -/
theorem hasDoubleNewline_append (l r : List Char) (hl : '\n' ∉ l) :
    hasDoubleNewline (l ++ r) = hasDoubleNewline r := by
  induction l with
  | nil => rfl
  | cons c t ih =>
    have hc : c ≠ '\n' := fun hcc => hl (hcc ▸ List.mem_cons_self _ _)
    have ht : '\n' ∉ t := fun hm => hl (List.mem_cons_of_mem _ hm)
    cases t with
    | nil =>
      cases r with
      | nil => simp [hasDoubleNewline]
      | cons r1 r' =>
        simp only [List.singleton_append]
        rw [hasDoubleNewline_cons₂]
        simp [hc]
    | cons c2 t' =>
      have hrec := ih ht
      simp only [List.cons_append] at hrec ⊢
      rw [hasDoubleNewline_cons₂, hrec]
      simp [hc]

/-- Helper: the newline-join of non-empty newline-free strings contains no
doubled newline. -/
theorem hasDoubleNewline_joinNewline (ss : List String)
    (h : ∀ s ∈ ss, s.toList ≠ [] ∧ '\n' ∉ s.toList) :
    hasDoubleNewline (joinNewline ss) = false := by
  induction ss with
  | nil => rfl
  | cons s ss ih =>
    have hs := h s (List.mem_cons_self _ _)
    have hrest : ∀ t ∈ ss, t.toList ≠ [] ∧ '\n' ∉ t.toList :=
      fun t ht => h t (List.mem_cons_of_mem _ ht)
    cases ss with
    | nil => simpa using hasDoubleNewline_append s.toList [] hs.2
    | cons s₂ ss' =>
      rw [show joinNewline (s :: s₂ :: ss') = s.toList ++ '\n' :: joinNewline (s₂ :: ss')
          from rfl]
      rw [hasDoubleNewline_append _ _ hs.2]
      have hs₂ := hrest s₂ (List.mem_cons_self _ _)
      obtain ⟨c, cs, hcs⟩ : ∃ c cs, s₂.toList = c :: cs := by
        cases hn : s₂.toList with
        | nil => exact absurd hn hs₂.1
        | cons c cs => exact ⟨c, cs, rfl⟩
      have hcne : c ≠ '\n' := fun hcc => hs₂.2 (hcc ▸ (hcs ▸ List.mem_cons_self _ _))
      obtain ⟨tail, htail⟩ : ∃ tail, joinNewline (s₂ :: ss') = c :: (cs ++ tail) := by
        cases ss' with
        | nil =>
          exact ⟨[], by rw [show joinNewline [s₂] = s₂.toList from rfl, hcs]; simp⟩
        | cons s₃ ss'' =>
          refine ⟨'\n' :: joinNewline (s₃ :: ss''), ?_⟩
          rw [show joinNewline (s₂ :: s₃ :: ss'')
              = s₂.toList ++ '\n' :: joinNewline (s₃ :: ss'') from rfl, hcs]
          simp
      rw [htail, hasDoubleNewline_cons₂]
      rw [← htail, ih hrest]
      simp [hcne]

/-- Helper: for non-empty newline-free summaries the normalization is a
no-op — the reduce text is exactly the newline-join. -/
theorem reduceText_eq_join (ss : List String)
    (h : ∀ s ∈ ss, s.toList ≠ [] ∧ '\n' ∉ s.toList) :
    reduceText ss = (joinNewline ss).asString := by
  unfold reduceText
  rw [dropDoubleNewlines_eq_self _ (hasDoubleNewline_joinNewline ss h)]

/-- C6 (amended): the text handed to the reduce stage's aggregate prompt is
the newline-join of the summaries with every occurrence of two consecutive
newlines deleted outright (replaced by nothing, in one left-to-right pass)
— when every summary is non-empty and newline-free this leaves each
summary present and separated by single newlines: the first `build_prompt`
call of the reduce stage receives exactly the plain newline-join. -/
theorem reduce_prompt_text_clean (o : Oracles) (cfg : AppConfig) (ss : List String)
    (h : ∀ s ∈ ss, s.toList ≠ [] ∧ '\n' ∉ s.toList) :
    (generate_reduce_summary o cfg ss).events.head?
      = some (.buildPrompt REDUCE_PROMPT_RESEARCH ((joinNewline ss).asString)
          cfg.user_reduce_words) := by
  unfold generate_reduce_summary
  rw [show (reduceText ss) = (joinNewline ss).asString from reduceText_eq_join ss h]
  rfl

/-- C6 amended witness: two newline-free summaries reach the reduce prompt
as their plain newline-join. -/
theorem reduce_prompt_text_clean_witness :
    (∀ s ∈ (["a", "b"] : List String), s.toList ≠ [] ∧ '\n' ∉ s.toList) ∧
    (generate_reduce_summary okOracles cfgG ["a", "b"]).events.head?
      = some (.buildPrompt REDUCE_PROMPT_RESEARCH ((joinNewline ["a", "b"]).asString)
          cfgG.user_reduce_words) :=
  ⟨by decide, reduce_prompt_text_clean okOracles cfgG ["a", "b"] (by decide)⟩

set_option maxRecDepth 20000 in
/-- C6 counterexample: for the summaries `["a\n", "b"]` the join is
`"a\n\nb"` and the `replace("\n\n", "")` step deletes the doubled newline
outright — including the separating newline — so the text handed to the
aggregate prompt is `"ab"`: it contains no newline at all, the two
summaries are not separated, and the first summary's content `"a\n"` is
not present intact.  The normalization does not merely remove visually
blank paragraphs. -/
theorem reduce_text_counterexample :
    (generate_reduce_summary okOracles cfgG ["a\n", "b"]).events.head?
        = some (.buildPrompt REDUCE_PROMPT_RESEARCH "ab" cfgG.user_reduce_words) ∧
    reduceText ["a\n", "b"] = "ab" ∧
    (∀ c ∈ "ab".toList, c ≠ '\n') :=
  ⟨by decide, by decide, by decide⟩

/-- Helper: under an always-succeeding oracle, the progress values reported
by `mapLoop` starting at enumeration index `i` are `(i + j + 1) / total`
for `j` ranging over the positions of the page list. -/
theorem mapLoop_progress_ok (o : Oracles) (cfg : AppConfig) (hok : chatAlwaysOk o) :
    ∀ (l : List (Nat × String)) (i total : Nat),
      progressValues (mapLoop o cfg total i l).events
        = (List.range l.length).map
            (fun (j : Nat) => ((i : ℚ) + (j : ℚ) + 1) / (total : ℚ)) := by
  intro l
  induction l with
  | nil => intro i total; rfl
  | cons pc rest ih =>
    intro i total
    obtain ⟨page, content⟩ := pc
    obtain ⟨s, hs⟩ := hok (o.build MAP_PROMPT_RESEARCH content cfg.user_map_words)
      (user_system_message cfg) "gpt-3.5-turbo" none
    simp only [mapLoop, hs, List.length_cons]
    simp only [progressValues, List.filterMap_cons]
    rw [← progressValues, ih (i + 1) total,
      List.range_succ_eq_map, List.map_cons, List.map_map]
    congr 1
    · norm_num
    · refine List.map_congr_left (fun j hj => ?_)
      simp only [Function.comp_apply]
      push_cast
      ring

/-- C7: when every completion call succeeds, the progress sink receives
exactly the values `(index + 1) / total_pages`, one after each page and in
page order — nothing is reported before the first page (the list of
reported values is exactly one per page, starting with `1 / total_pages`)
— and for a non-empty PageSet the value reported after the last page is
`1`. -/
theorem map_progress_values (o : Oracles) (cfg : AppConfig)
    (pages : List (Nat × String)) (hok : chatAlwaysOk o) :
    progressValues (generate_map_summaries o cfg pages).events
      = (List.range pages.length).map
          (fun (j : Nat) => ((j : ℚ) + 1) / (pages.length : ℚ)) ∧
    (pages ≠ [] →
      (progressValues (generate_map_summaries o cfg pages).events).getLast?
        = some 1) := by
  have hmain : progressValues (generate_map_summaries o cfg pages).events
      = (List.range pages.length).map
          (fun (j : Nat) => ((j : ℚ) + 1) / (pages.length : ℚ)) := by
    rw [show generate_map_summaries o cfg pages
        = mapLoop o cfg pages.length 0 pages from rfl]
    rw [mapLoop_progress_ok o cfg hok pages 0 pages.length]
    exact List.map_congr_left (fun j hj => by norm_num)
  refine ⟨hmain, fun hne => ?_⟩
  rw [hmain]
  obtain ⟨m, hm⟩ : ∃ m, pages.length = m + 1 :=
    Nat.exists_eq_succ_of_ne_zero (by simpa using hne)
  rw [hm, List.range_succ, List.map_append, List.map_singleton,
    List.getLast?_concat]
  have hnz : ((m : ℚ) + 1) ≠ 0 := by positivity
  rw [show (((m : ℚ) + 1) / ((m + 1 : Nat) : ℚ)) = 1 by push_cast; exact div_self hnz]

/-- C7 witness: a one-page PageSet under the always-succeeding oracle
reports exactly `[1/1]`, whose last value is `1`. -/
theorem map_progress_values_witness :
    chatAlwaysOk okOracles ∧
    (progressValues (generate_map_summaries okOracles cfgG [(1, "a")]).events
        = (List.range ([(1, "a")] : List (Nat × String)).length).map
            (fun (j : Nat) => ((j : ℚ) + 1) / ((([(1, "a")] : List (Nat × String)).length : ℚ))) ∧
      (([(1, "a")] : List (Nat × String)) ≠ [] →
        (progressValues (generate_map_summaries okOracles cfgG [(1, "a")]).events).getLast?
          = some 1)) :=
  ⟨fun p _ _ _ => ⟨"S" ++ p, rfl⟩,
    map_progress_values okOracles cfgG [(1, "a")] (fun p _ _ _ => ⟨"S" ++ p, rfl⟩)⟩

/-- Helper: the two hard-coded templates are distinct strings. -/
theorem map_tpl_ne_reduce_tpl : MAP_PROMPT_RESEARCH ≠ REDUCE_PROMPT_RESEARCH := by
  decide

/-- Helper: the map model and the reduce model are distinct strings. -/
theorem map_model_ne_reduce_model :
    ("gpt-3.5-turbo" : String) ≠ "gpt-4-1106-preview" := by
  decide

/-- Helper: the map stage never performs a reduce-side call — no prompt is
built from the reduce template and no completion call targets the reduce
model `"gpt-4-1106-preview"`. -/
theorem mapLoop_no_reduce_calls (o : Oracles) (cfg : AppConfig) :
    ∀ (l : List (Nat × String)) (i total : Nat),
      ∀ ev ∈ (mapLoop o cfg total i l).events, isReduceCall ev = false := by
  intro l
  induction l with
  | nil => intro i total ev hev; cases hev
  | cons pc rest ih =>
    intro i total ev hev
    obtain ⟨page, content⟩ := pc
    revert hev
    cases hc : o.chat (o.build MAP_PROMPT_RESEARCH content cfg.user_map_words)
        (user_system_message cfg) "gpt-3.5-turbo" none with
    | error e =>
      simp only [mapLoop, hc, List.mem_cons, List.not_mem_nil, or_false]
      rintro (rfl | rfl) <;>
        simp [isReduceCall, map_tpl_ne_reduce_tpl, map_model_ne_reduce_model]
    | ok s =>
      simp only [mapLoop, hc, List.mem_cons]
      rintro (rfl | rfl | rfl | hev)
      · simp [isReduceCall, map_tpl_ne_reduce_tpl]
      · simp [isReduceCall, map_model_ne_reduce_model]
      · rfl
      · exact ih (i + 1) total ev hev

/-- C8: in every run in which the map stage fails, the reduce stage is
never invoked — the run's whole trace contains no prompt built from the
reduce template and no completion call to the reduce model. -/
theorem no_reduce_after_map_failure (o : Oracles) (cfg : AppConfig)
    (path : String) (start_page end_page : Nat) (prev : Option String)
    (pages : List (Nat × String)) (msg : String)
    (hex : o.extract path start_page end_page = .ok pages)
    (hm : (generate_map_summaries o cfg pages).result = .error msg) :
    ∀ ev ∈ (runPipeline o cfg path start_page end_page prev).events,
      isReduceCall ev = false := by
  intro ev hev
  unfold runPipeline at hev
  rw [hex] at hev
  simp only [hm] at hev
  rcases List.mem_cons.mp hev with rfl | hev
  · rfl
  · exact mapLoop_no_reduce_calls o cfg pages 0 pages.length ev hev

/-- C8 witness: a run whose second page's completion fails never reaches a
reduce-side call. -/
theorem no_reduce_after_map_failure_witness :
    failOracles.extract "temp.pdf" 1 3 = .ok [(1, "a"), (2, "b"), (3, "c")] ∧
    (generate_map_summaries failOracles cfgG [(1, "a"), (2, "b"), (3, "c")]).result
        = .error "boom" ∧
    ∀ ev ∈ (runPipeline failOracles cfgG "temp.pdf" 1 3 none).events,
      isReduceCall ev = false :=
  ⟨rfl, by decide,
    no_reduce_after_map_failure failOracles cfgG "temp.pdf" 1 3 none
      [(1, "a"), (2, "b"), (3, "c")] "boom" rfl (by decide)⟩

/-- Helper: every template the map stage hands to `build_prompt` is the
hard-coded `MAP_PROMPT_RESEARCH`, whatever the selected mode. -/
theorem mapLoop_builtTemplates (o : Oracles) (cfg : AppConfig) :
    ∀ (l : List (Nat × String)) (i total : Nat),
      ∀ t ∈ builtTemplates (mapLoop o cfg total i l).events,
        t = MAP_PROMPT_RESEARCH := by
  intro l
  induction l with
  | nil => intro i total t ht; cases ht
  | cons pc rest ih =>
    intro i total t ht
    obtain ⟨page, content⟩ := pc
    revert ht
    cases hc : o.chat (o.build MAP_PROMPT_RESEARCH content cfg.user_map_words)
        (user_system_message cfg) "gpt-3.5-turbo" none with
    | error e =>
      simp only [mapLoop, hc, builtTemplates, List.filterMap_cons, List.mem_cons,
        List.not_mem_nil, or_false, List.mem_singleton]
      intro ht
      simpa using ht
    | ok s =>
      simp only [mapLoop, hc, builtTemplates, List.filterMap_cons]
      intro ht
      rcases List.mem_cons.mp ht with rfl | ht
      · rfl
      · exact ih (i + 1) total t ht

/-- C1 (the code contradicts it): the map stage always builds its per-page
prompts from the hard-coded `MAP_PROMPT_RESEARCH` and the reduce stage its
aggregate prompt from the hard-coded `REDUCE_PROMPT_RESEARCH` (`app.py`
lines 103 and 127); the mode-selected templates `map_prompt_template` and
`reduce_prompt_template` (lines 58-59) are assigned but never used.  With
mode General selected (and the General templates differing from the
research ones, as the distinct `genaipy` constants do), every built prompt
uses a template different from the selected mode's template. -/
theorem mode_templates_ignored (o : Oracles) (cfg : AppConfig)
    (pages : List (Nat × String)) (ss : List String)
    (hmode : cfg.selected_mode = Mode.general)
    (hmap : cfg.genaipy_map_tpl ≠ MAP_PROMPT_RESEARCH)
    (hred : cfg.genaipy_reduce_tpl ≠ REDUCE_PROMPT_RESEARCH) :
    (∀ t ∈ builtTemplates (generate_map_summaries o cfg pages).events,
        t = MAP_PROMPT_RESEARCH ∧ t ≠ map_prompt_template cfg) ∧
    (∀ t ∈ builtTemplates (generate_reduce_summary o cfg ss).events,
        t = REDUCE_PROMPT_RESEARCH ∧ t ≠ reduce_prompt_template cfg) := by
  have hmapt : map_prompt_template cfg = cfg.genaipy_map_tpl := by
    simp [map_prompt_template, mode_settings, hmode]
  have hredt : reduce_prompt_template cfg = cfg.genaipy_reduce_tpl := by
    simp [reduce_prompt_template, mode_settings, hmode]
  constructor
  · intro t ht
    have h1 := mapLoop_builtTemplates o cfg pages 0 pages.length t ht
    exact ⟨h1, by rw [h1, hmapt]; exact Ne.symm hmap⟩
  · intro t ht
    have h2 : builtTemplates (generate_reduce_summary o cfg ss).events
        = [REDUCE_PROMPT_RESEARCH] := rfl
    rw [h2, List.mem_singleton] at ht
    exact ⟨ht, by rw [ht, hredt]; exact Ne.symm hred⟩

set_option maxRecDepth 40000 in
/-- C1 witness: with mode General selected and distinct General templates,
the map stage's built template is the research one and differs from the
mode's map template (likewise for reduce). -/
theorem mode_templates_ignored_witness :
    cfgG.selected_mode = Mode.general ∧
    cfgG.genaipy_map_tpl ≠ MAP_PROMPT_RESEARCH ∧
    cfgG.genaipy_reduce_tpl ≠ REDUCE_PROMPT_RESEARCH ∧
    MAP_PROMPT_RESEARCH
        ∈ builtTemplates (generate_map_summaries okOracles cfgG [(1, "a")]).events ∧
    MAP_PROMPT_RESEARCH ≠ map_prompt_template cfgG ∧
    REDUCE_PROMPT_RESEARCH ≠ reduce_prompt_template cfgG :=
  ⟨rfl, by decide, by decide, by decide,
    ((mode_templates_ignored okOracles cfgG [(1, "a")] ["s"] rfl (by decide)
        (by decide)).1 MAP_PROMPT_RESEARCH (by decide)).2,
    ((mode_templates_ignored okOracles cfgG [(1, "a")] ["s"] rfl (by decide)
        (by decide)).2 REDUCE_PROMPT_RESEARCH (by decide)).2⟩

end PdfSummarizer
